import Mathlib

/-!
Verification of the excerpted Web Stories plugin components:
the PHP `Analytics` class (amp-analytics configuration emitter),
the `OpacityPreview` React input component, and the
`InspectorProvider` React context provider.

PHP associative arrays are modelled as ordered association lists of
string keys and JSON-like values; React component state is modelled by
explicit state passing (each event handler is a function from state to
state, paired with the values it emits to injected callbacks).
-/

set_option autoImplicit false

namespace WebStories

/-- A JSON-like value: the shape of the nested PHP configuration arrays
built by `Analytics::get_default_configuration` (string leaves and
ordered string-keyed objects). -/
inductive JVal where
  | str : String → JVal
  | obj : List (String × JVal) → JVal

/-- An ordered string-keyed association list: the model of a PHP
associative array. -/
abbrev Assoc := List (String × JVal)

/-- First value stored under key `k` (PHP array read `$a[$k]`). -/
def lookupA (a : Assoc) (k : String) : Option JVal :=
  match a with
  | [] => none
  | p :: rest => if p.1 = k then some p.2 else lookupA rest k

/-- Whether key `k` occurs in `a` (PHP `isset($a[$k])` for non-null values). -/
def containsKey (a : Assoc) (k : String) : Bool :=
  match a with
  | [] => false
  | p :: rest => p.1 = k || containsKey rest k

/-- PHP assignment `$a[$k] = $v`: overwrites the value in place when the
key exists (keeping its position), otherwise appends the pair at the end. -/
def assocSet (a : Assoc) (k : String) (v : JVal) : Assoc :=
  if containsKey a k then a.map (fun p => if p.1 = k then (k, v) else p)
  else a ++ [(k, v)]

/-- PHP `array_merge($a, $b)` restricted to string keys: keys of `$a` keep
their positions, with values overwritten by `$b` where the key recurs;
keys only in `$b` are appended in order. -/
def array_merge (a b : Assoc) : Assoc :=
  a.map (fun p =>
    match lookupA b p.1 with
    | some w => (p.1, w)
    | none => p)
  ++ b.filter (fun p => !containsKey a p.1)

/-- The literal configuration array built inside
`Analytics::get_default_configuration` before the
`web_stories_analytics_configuration` filter is applied. -/
def base_configuration (tracking_id : String) : Assoc :=
  [ ("vars", .obj
      [ ("gtag_id", .str tracking_id),
        ("config", .obj [ (tracking_id, .obj [("groups", .str "default")]) ]) ]),
    ("triggers", .obj
      [ ("storyProgress", .obj
          [ ("on", .str "story-page-visible"),
            ("request", .str "event"),
            ("vars", .obj
              [ ("event_name", .str "custom"),
                ("event_action", .str "story_progress"),
                ("event_category", .str "${title}"),
                ("event_label", .str "${storyPageIndex}"),
                ("event_value", .str "${storyProgress}"),
                ("send_to", .str tracking_id) ]) ]),
        ("storyEnd", .obj
          [ ("on", .str "story-last-page-visible"),
            ("request", .str "event"),
            ("vars", .obj
              [ ("event_name", .str "custom"),
                ("event_action", .str "story_complete"),
                ("event_category", .str "${title}"),
                ("event_label", .str "${storyPageCount}"),
                ("send_to", .str tracking_id) ]) ]),
        ("trackFocusState", .obj
          [ ("on", .str "story-focus"),
            ("tagName", .str "a"),
            ("request", .str "click "),
            ("vars", .obj
              [ ("event_name", .str "custom"),
                ("event_action", .str "story_focus"),
                ("event_category", .str "${title}"),
                ("send_to", .str tracking_id) ]) ]),
        ("trackClickThrough", .obj
          [ ("on", .str "story-click-through"),
            ("tagName", .str "a"),
            ("request", .str "click "),
            ("vars", .obj
              [ ("event_name", .str "custom"),
                ("event_action", .str "story_click_through"),
                ("event_category", .str "${title}"),
                ("send_to", .str tracking_id) ]) ]),
        ("storyOpen", .obj
          [ ("on", .str "story-open"),
            ("request", .str "event"),
            ("vars", .obj
              [ ("event_name", .str "custom"),
                ("event_action", .str "story_open"),
                ("event_category", .str "${title}"),
                ("send_to", .str tracking_id) ]) ]),
        ("storyClose", .obj
          [ ("on", .str "story-close"),
            ("request", .str "event"),
            ("vars", .obj
              [ ("event_name", .str "custom"),
                ("event_action", .str "story_close"),
                ("event_category", .str "${title}"),
                ("send_to", .str tracking_id) ]) ]),
        ("audioMuted", .obj
          [ ("on", .str "story-audio-muted"),
            ("request", .str "event"),
            ("vars", .obj
              [ ("event_name", .str "custom"),
                ("event_action", .str "story_audio_muted"),
                ("event_category", .str "${title}"),
                ("send_to", .str tracking_id) ]) ]),
        ("audioUnmuted", .obj
          [ ("on", .str "story-audio-unmuted"),
            ("request", .str "event"),
            ("vars", .obj
              [ ("event_name", .str "custom"),
                ("event_action", .str "story_audio_unmuted"),
                ("event_category", .str "${title}"),
                ("send_to", .str tracking_id) ]) ]),
        ("pageAttachmentEnter", .obj
          [ ("on", .str "story-page-attachment-enter"),
            ("request", .str "event"),
            ("vars", .obj
              [ ("event_name", .str "custom"),
                ("event_action", .str "story_page_attachment_enter"),
                ("event_category", .str "${title}"),
                ("send_to", .str tracking_id) ]) ]),
        ("pageAttachmentExit", .obj
          [ ("on", .str "story-page-attachment-exit"),
            ("request", .str "event"),
            ("vars", .obj
              [ ("event_name", .str "custom"),
                ("event_action", .str "story_page_attachment_exit"),
                ("event_category", .str "${title}"),
                ("send_to", .str tracking_id) ]) ]) ]) ]

/-- `Analytics::get_default_configuration`: builds the literal
configuration and passes it through the
`web_stories_analytics_configuration` filter. The WordPress hook
registry is external; the composite of all registered filter callbacks
is the explicit parameter `f` (with no callbacks registered,
`apply_filters` returns its value unchanged, i.e. `f = id`). -/
def get_default_configuration (f : Assoc → Assoc) (tracking_id : String) : Assoc :=
  f (base_configuration tracking_id)

/-- The site-wide options relevant to the `Analytics` class, plus whether
the Site Kit plugin is loaded (`GOOGLESITEKIT_VERSION` defined). An
option holds `some l` when `get_option` returns an array `l`, `none`
otherwise. -/
structure AnalyticsState where
  googlesitekitVersionDefined : Bool
  activeModulesOption : Option (List String)
  legacyActiveModulesOption : Option (List String)
  trackingIdSetting : String

/-- `Analytics::get_site_kit_active_modules_option`: bails with `[]` when
Site Kit is not loaded, else the first of the two options that is an
array, else `[]`. -/
def get_site_kit_active_modules_option (st : AnalyticsState) : List String :=
  if !st.googlesitekitVersionDefined then []
  else
    match st.activeModulesOption with
    | some l => l
    | none =>
      match st.legacyActiveModulesOption with
      | some l => l
      | none => []

/-- `Analytics::is_site_kit_analytics_module_active`: strict `in_array`
membership of `'analytics'` in the active modules. -/
def is_site_kit_analytics_module_active (st : AnalyticsState) : Bool :=
  (get_site_kit_active_modules_option st).contains "analytics"

/-- `Analytics::get_tracking_id`: the tracking-ID option cast to string. -/
def get_tracking_id (st : AnalyticsState) : String :=
  st.trackingIdSetting

/-- PHP truthiness of a string: every string is truthy except the empty
string and `"0"` (the `! $tracking_id` check). -/
def php_truthy_string (s : String) : Bool :=
  !(s = "" || s = "0")

/-- `Analytics::print_analytics_tag`: `none` when no tag is printed
(Site Kit analytics active, or falsy tracking ID); otherwise `some` of
the configuration embedded as JSON in the printed `amp-analytics` tag. -/
def print_analytics_tag (f : Assoc → Assoc) (st : AnalyticsState) : Option Assoc :=
  if is_site_kit_analytics_module_active st then none
  else if !php_truthy_string (get_tracking_id st) then none
  else some (get_default_configuration f (get_tracking_id st))

/-- Reads `$a['vars']['gtag_id']` as a string (PHP string coercion of a
missing or non-string entry yields `""` in this model). -/
def gtagIdOf (a : Assoc) : String :=
  match lookupA a "vars" with
  | some (.obj vars) =>
    match lookupA vars "gtag_id" with
    | some (.str s) => s
    | _ => ""
  | _ => ""

/-- Reads `$a['triggers']` as an associative array, `[]` when absent
(the `isset` defaulting in `filter_site_kit_gtag_opt`). -/
def triggersOf (a : Assoc) : Assoc :=
  match lookupA a "triggers" with
  | some (.obj ts) => ts
  | _ => []

/-- `Analytics::filter_site_kit_gtag_opt`: on non-singular story views the
input is returned unchanged; otherwise the synthesized default triggers
(built from the input's `vars.gtag_id`) are merged under the input's
triggers, external entries winning on key collision, and stored back
under `'triggers'`. `is_singular` is the WordPress query predicate for a
single story view, passed explicitly. -/
def filter_site_kit_gtag_opt (f : Assoc → Assoc) (is_singular : Bool)
    (gtag_opt : Assoc) : Assoc :=
  if !is_singular then gtag_opt
  else
    let default_config := get_default_configuration f (gtagIdOf gtag_opt)
    let default_triggers := triggersOf default_config
    let ext_triggers := triggersOf gtag_opt
    assocSet gtag_opt "triggers" (.obj (array_merge default_triggers ext_triggers))

/-- Value of a character as a digit (decimal or hexadecimal), as JS
`parseInt` accepts it. -/
def digitVal (c : Char) : Option Nat :=
  if '0' ≤ c ∧ c ≤ '9' then some (c.toNat - '0'.toNat)
  else if 'a' ≤ c ∧ c ≤ 'f' then some (c.toNat - 'a'.toNat + 10)
  else if 'A' ≤ c ∧ c ≤ 'F' then some (c.toNat - 'A'.toNat + 10)
  else none

/-- Accumulates the longest run of digits below `radix` at the head of
the character list. -/
def parseDigitsAux (radix : Nat) : List Char → Nat → Nat
  | [], acc => acc
  | c :: cs, acc =>
    match digitVal c with
    | some d => if d < radix then parseDigitsAux radix cs (acc * radix + d) else acc
    | none => acc

/-- Value of the longest digit run at the head of the list; `none` (NaN)
when the first character is not a digit below `radix`. -/
def parseDigits (radix : Nat) (cs : List Char) : Option Nat :=
  match cs with
  | [] => none
  | c :: _ =>
    match digitVal c with
    | some d => if d < radix then some (parseDigitsAux radix cs 0) else none
    | none => none

/-- JS whitespace accepted at the head of a `parseInt` argument. -/
def isJsWhitespace (c : Char) : Bool :=
  c = ' ' || c = '\t' || c = '\n' || c = '\r' || c = '\x0b' || c = '\x0c'

/-- JS `parseInt(s)` with no radix argument: leading whitespace skipped,
optional sign, `0x`/`0X` selects base 16 and otherwise base 10, longest
leading digit run parsed and trailing characters ignored; `none` is NaN. -/
def jsParseInt (s : String) : Option Int :=
  let cs := s.data.dropWhile isJsWhitespace
  let sign : Int := match cs with
    | '-' :: _ => -1
    | _ => 1
  let cs := match cs with
    | '-' :: rest => rest
    | '+' :: rest => rest
    | _ => cs
  let (radix, cs) := match cs with
    | '0' :: 'x' :: rest => (16, rest)
    | '0' :: 'X' :: rest => (16, rest)
    | _ => (10, cs)
  (parseDigits radix cs).map (fun n => sign * (n : Int))

/-- Local state of the `OpacityPreview` component: the `inputValue` text
buffer and the `hasPostfix` flag (renamed `hasPct`: `postfix` is
reserved in Lean). -/
structure OpacityState where
  inputValue : String
  hasPct : Bool

/-- Modelled from the spec: `getPreviewOpacity` is imported from a module
outside this excerpt; per the spec the committed value (a color pattern
in the source, represented here by its opacity fraction) is formatted as
an integer percentage. -/
def getPreviewOpacity (value : ℚ) : String :=
  toString (round (value * 100))

/-- `OpacityPreview.handleChange`: stores the literal event text in the
buffer and, when `parseInt(text) / 100` is not NaN, emits that fraction
to the `onChange` callback (`none` = callback not invoked). -/
def handleChange (st : OpacityState) (s : String) : OpacityState × Option ℚ :=
  ({ st with inputValue := s },
    match jsParseInt s with
    | some n => some ((n : ℚ) / 100)
    | none => none)

/-- `OpacityPreview.updateFromValue`: resets the buffer to the preview of
the committed value. -/
def updateFromValue (value : ℚ) (st : OpacityState) : OpacityState :=
  { st with inputValue := getPreviewOpacity value }

/-- `OpacityPreview.handleBlur`: re-enables the percent suffix, then
resets the buffer from the committed value. -/
def handleBlur (value : ℚ) (st : OpacityState) : OpacityState :=
  updateFromValue value { st with hasPct := true }

/-- `OpacityPreview` focus handler (`disablePostfix`). -/
def handleFocus (st : OpacityState) : OpacityState :=
  { st with hasPct := false }

/-- The `value` prop passed to the rendered input:
`hasPostfix ? inputValue + postfix : inputValue`, where `pct` is the
localized percent sign. -/
def displayedValue (st : OpacityState) (pct : String) : String :=
  if st.hasPct then st.inputValue ++ pct else st.inputValue

/-- The three inspector tabs. -/
inductive Tab where
  | design
  | document
  | prepublish
deriving DecidableEq

/-- A status record returned by `getAllStatuses`. -/
structure StatusRecord where
  slug : String
  name : String
  show_in_list : Bool

/-- A stored status entry `{value: slug, name}`. -/
structure StatusOption where
  value : String
  name : String
deriving DecidableEq

/-- A user record returned by `getAllUsers`. -/
structure UserRecord where
  id : Nat
  name : String

/-- A stored user entry `{value: id, name}`. -/
structure UserOption where
  value : Nat
  name : String
deriving DecidableEq

/-- The `InspectorProvider` state relevant to tabs and reference lists. -/
structure ProviderState where
  tab : Tab
  users : List UserOption
  statuses : List StatusOption
  isUsersLoading : Bool
  isStatusesLoading : Bool

/-- Provider state at mount: `design` tab, both lists empty, nothing
loading. -/
def initialProviderState : ProviderState :=
  { tab := Tab.design
    users := []
    statuses := []
    isUsersLoading := false
    isStatusesLoading := false }

/-- `loadStatuses` action: when not already loading and the list is
empty, sets the loading flag and invokes `getAllStatuses` (the returned
Bool is whether the fetch capability was invoked). -/
def loadStatuses (st : ProviderState) : ProviderState × Bool :=
  if st.isStatusesLoading = false ∧ st.statuses.length = 0 then
    ({ st with isStatusesLoading := true }, true)
  else (st, false)

/-- The `then` + `finally` continuation of a successful `getAllStatuses`
fetch: records are filtered to those with `show_in_list` truthy, mapped
to `{value: slug, name}` and stored, and the loading flag clears.
(`Object.values` on an already-array payload is the identity.) -/
def resolveStatuses (st : ProviderState) (data : List StatusRecord) : ProviderState :=
  { st with
    statuses := (data.filter (fun r => r.show_in_list)).map
      (fun r => { value := r.slug, name := r.name })
    isStatusesLoading := false }

/-- The `finally` continuation alone, run when the `getAllStatuses`
fetch rejects: only the loading flag clears. -/
def rejectStatuses (st : ProviderState) : ProviderState :=
  { st with isStatusesLoading := false }

/-- `loadUsers` action: when not already loading and the list is empty,
sets the loading flag and invokes `getAllUsers`. -/
def loadUsers (st : ProviderState) : ProviderState × Bool :=
  if st.isUsersLoading = false ∧ st.users.length = 0 then
    ({ st with isUsersLoading := true }, true)
  else (st, false)

/-- The `then` + `finally` continuation of a successful `getAllUsers`
fetch: records are mapped to `{value: id, name}` and stored, and the
loading flag clears. -/
def resolveUsers (st : ProviderState) (data : List UserRecord) : ProviderState :=
  { st with
    users := data.map (fun r => { value := r.id, name := r.name })
    isUsersLoading := false }

/-- The `finally` continuation alone, run when the `getAllUsers` fetch
rejects: only the loading flag clears. -/
def rejectUsers (st : ProviderState) : ProviderState :=
  { st with isUsersLoading := false }

/-- Body of the effect keyed on `selectedElementIds`: when the current
selection is non-empty and the tab (read through `tabRef`, which the
earlier effect has already synchronized) is `document`, the tab is set
to `design`. -/
def selectedElementIdsEffect (selectedElementIds : List String) (tab : Tab) : Tab :=
  if selectedElementIds.length > 0 ∧ tab = Tab.document then Tab.design else tab

/-- One change of the `selectedElementIds` dependency: the effect body
runs exactly when the selection differs from its previous value. -/
def selectedElementIdsStep (prev next : List String) (tab : Tab) : Tab :=
  if next ≠ prev then selectedElementIdsEffect next tab else tab

theorem lookupA_append_left {a : Assoc} {k : String} {v : JVal} (b : Assoc)
    (h : lookupA a k = some v) : lookupA (a ++ b) k = some v := by
  induction a with
  | nil => simp [lookupA] at h
  | cons p rest ih =>
    by_cases hpk : p.1 = k
    · simp [lookupA, hpk] at h ⊢
      exact h
    · simp [lookupA, hpk] at h ⊢
      exact ih h

theorem lookupA_append_right {a : Assoc} {k : String} (b : Assoc)
    (h : lookupA a k = none) : lookupA (a ++ b) k = lookupA b k := by
  induction a with
  | nil => simp [lookupA]
  | cons p rest ih =>
    by_cases hpk : p.1 = k
    · simp [lookupA, hpk] at h
    · simp [lookupA, hpk] at h ⊢
      exact ih h

theorem containsKey_false_iff (a : Assoc) (k : String) :
    containsKey a k = false ↔ lookupA a k = none := by
  induction a with
  | nil => simp [containsKey, lookupA]
  | cons p rest ih =>
    by_cases hpk : p.1 = k
    · simp [containsKey, lookupA, hpk]
    · simp [containsKey, lookupA, hpk, ih]

theorem lookupA_map_overwrite (a b : Assoc) (k : String) :
    lookupA (a.map (fun p =>
      match lookupA b p.1 with
      | some w => (p.1, w)
      | none => p)) k =
    match lookupA a k with
    | none => none
    | some w =>
      match lookupA b k with
      | some v => some v
      | none => some w := by
  induction a with
  | nil => simp [lookupA]
  | cons p rest ih =>
    by_cases hpk : p.1 = k
    · cases hb : lookupA b p.1 <;> subst hpk <;> simp [lookupA, hb]
    · cases hb : lookupA b p.1 <;> simp [lookupA, hb, hpk, ih]

theorem lookupA_filter_keep (a b : Assoc) (k : String)
    (h : containsKey a k = false) :
    lookupA (b.filter (fun p => !containsKey a p.1)) k = lookupA b k := by
  induction b with
  | nil => simp
  | cons q rest ih =>
    by_cases hqk : q.1 = k
    · have hq : containsKey a q.1 = false := by rw [hqk]; exact h
      simp [List.filter_cons, hq, lookupA, hqk, h]
    · cases hc : containsKey a q.1 <;> simp [List.filter_cons, hc, lookupA, hqk, ih]

theorem lookupA_filter_drop (a b : Assoc) (k : String)
    (h : containsKey a k = true) :
    lookupA (b.filter (fun p => !containsKey a p.1)) k = none := by
  induction b with
  | nil => simp [lookupA]
  | cons q rest ih =>
    by_cases hqk : q.1 = k
    · have hq : containsKey a q.1 = true := by rw [hqk]; exact h
      simp [List.filter_cons, hq, ih]
    · cases hc : containsKey a q.1 <;> simp [List.filter_cons, hc, lookupA, hqk, ih]

theorem lookupA_array_merge_right (a b : Assoc) (k : String) (v : JVal)
    (hb : lookupA b k = some v) : lookupA (array_merge a b) k = some v := by
  unfold array_merge
  cases ha : lookupA a k with
  | some w =>
    apply lookupA_append_left
    rw [lookupA_map_overwrite, ha, hb]
  | none =>
    have h1 : lookupA (a.map (fun p =>
        match lookupA b p.1 with
        | some w => (p.1, w)
        | none => p)) k = none := by
      rw [lookupA_map_overwrite, ha]
    rw [lookupA_append_right _ h1]
    have hc : containsKey a k = false := (containsKey_false_iff a k).mpr ha
    rw [lookupA_filter_keep a b k hc, hb]

theorem lookupA_mapSet (a : Assoc) (k : String) (v : JVal)
    (h : containsKey a k = true) :
    lookupA (a.map (fun p => if p.1 = k then (k, v) else p)) k = some v := by
  induction a with
  | nil => simp [containsKey] at h
  | cons p rest ih =>
    by_cases hpk : p.1 = k
    · simp [lookupA, hpk]
    · simp [containsKey, hpk] at h
      simp [lookupA, hpk, ih h]

theorem lookupA_mapSet_ne (a : Assoc) (k : String) (v : JVal) (q : String)
    (h : q ≠ k) :
    lookupA (a.map (fun p => if p.1 = k then (k, v) else p)) q = lookupA a q := by
  induction a with
  | nil => simp [lookupA]
  | cons p rest ih =>
    by_cases hpk : p.1 = k
    · have hpq : ¬ p.1 = q := by rw [hpk]; exact fun hkq => h hkq.symm
      simp [lookupA, hpk, hpq, Ne.symm h, ih]
    · by_cases hpq : p.1 = q <;> simp [lookupA, hpk, hpq, h, ih]

theorem lookupA_assocSet_self (a : Assoc) (k : String) (v : JVal) :
    lookupA (assocSet a k v) k = some v := by
  unfold assocSet
  cases hc : containsKey a k with
  | true => simp [lookupA_mapSet a k v hc]
  | false =>
    have ha : lookupA a k = none := (containsKey_false_iff a k).mp hc
    simp [lookupA_append_right _ ha, lookupA]

theorem lookupA_assocSet_ne (a : Assoc) (k : String) (v : JVal) (q : String)
    (h : q ≠ k) : lookupA (assocSet a k v) q = lookupA a q := by
  unfold assocSet
  cases hc : containsKey a k with
  | true => simp [lookupA_mapSet_ne a k v q h]
  | false =>
    cases ha : lookupA a q with
    | some w => simp [lookupA_append_left _ ha]
    | none => simp [lookupA_append_right _ ha, lookupA, Ne.symm h]

/-- C1 (amended): with tracking ID `UA-123`, no competing Site Kit
analytics module active and no third-party configuration filter,
`print_analytics_tag` emits the configuration built by
`get_default_configuration`, whose `vars.gtag_id` equals `UA-123` and
whose trigger keys are exactly the ten named triggers covering story
progress, completion, focus, click-through, open, close, audio mute,
audio unmute, and page-attachment enter and exit. -/
theorem print_analytics_tag_ua123_ten_triggers (st : AnalyticsState)
    (htid : get_tracking_id st = "UA-123")
    (hsk : is_site_kit_analytics_module_active st = false) :
    print_analytics_tag id st = some (get_default_configuration id "UA-123") ∧
    gtagIdOf (get_default_configuration id "UA-123") = "UA-123" ∧
    (triggersOf (get_default_configuration id "UA-123")).map Prod.fst =
      ["storyProgress", "storyEnd", "trackFocusState", "trackClickThrough",
       "storyOpen", "storyClose", "audioMuted", "audioUnmuted",
       "pageAttachmentEnter", "pageAttachmentExit"] := by
  refine ⟨?_, rfl, rfl⟩
  simp [print_analytics_tag, hsk, htid, php_truthy_string]

theorem print_analytics_tag_ua123_ten_triggers_witness :
    get_tracking_id ⟨false, none, none, "UA-123"⟩ = "UA-123" ∧
    is_site_kit_analytics_module_active ⟨false, none, none, "UA-123"⟩ = false ∧
    print_analytics_tag id ⟨false, none, none, "UA-123"⟩ =
      some (get_default_configuration id "UA-123") :=
  ⟨rfl, rfl,
    (print_analytics_tag_ua123_ten_triggers ⟨false, none, none, "UA-123"⟩ rfl rfl).1⟩

/-- C1 counterexample: the synthesized configuration contains ten
triggers, not nine as the claim counts them. -/
theorem print_analytics_tag_triggers_not_nine :
    ((triggersOf (get_default_configuration id "UA-123")).map Prod.fst).length = 10 ∧
    ((triggersOf (get_default_configuration id "UA-123")).map Prod.fst).length ≠ 9 :=
  ⟨rfl, by decide⟩

/-- C2: from a state where the status list is empty and no status fetch
is in flight, the first `loadStatuses` call invokes `getAllStatuses` and
the second call, made before the fetch settles, is a no-op: the fetch
capability is invoked exactly once. -/
theorem loadStatuses_double_invoke_single_fetch (st : ProviderState)
    (h1 : st.isStatusesLoading = false) (h2 : st.statuses = []) :
    (loadStatuses st).2 = true ∧
    (loadStatuses (loadStatuses st).1).2 = false ∧
    (loadStatuses (loadStatuses st).1).1 = (loadStatuses st).1 := by
  have hfst : loadStatuses st = ({ st with isStatusesLoading := true }, true) := by
    simp [loadStatuses, h1, h2]
  rw [hfst]
  simp [loadStatuses]

theorem loadStatuses_double_invoke_single_fetch_witness :
    initialProviderState.isStatusesLoading = false ∧
    initialProviderState.statuses = [] ∧
    ((loadStatuses initialProviderState).2 = true ∧
      (loadStatuses (loadStatuses initialProviderState).1).2 = false ∧
      (loadStatuses (loadStatuses initialProviderState).1).1 =
        (loadStatuses initialProviderState).1) :=
  ⟨rfl, rfl, loadStatuses_double_invoke_single_fetch initialProviderState rfl rfl⟩

/-- C3 (amended): whenever `selectedElementIds` changes to a non-empty
list — from any previous value, not only from the empty list — a
`document` tab is forced back to `design`; a `design` or `prepublish`
tab is unchanged; and no reset occurs when the new selection is empty. -/
theorem selectedElementIds_reset_rule (prev next : List String) (tab : Tab)
    (hchange : next ≠ prev) :
    (tab = Tab.document → 0 < next.length →
      selectedElementIdsStep prev next tab = Tab.design) ∧
    (tab ≠ Tab.document → selectedElementIdsStep prev next tab = tab) ∧
    (next = [] → selectedElementIdsStep prev next tab = tab) := by
  refine ⟨?_, ?_, ?_⟩
  · intro hd hlen
    simp [selectedElementIdsStep, hchange, selectedElementIdsEffect, hd, hlen]
  · intro hd
    simp [selectedElementIdsStep, hchange, selectedElementIdsEffect, hd]
  · intro he
    subst he
    simp [selectedElementIdsStep, hchange, selectedElementIdsEffect]

theorem selectedElementIds_reset_rule_witness :
    (["a"] : List String) ≠ [] ∧
    selectedElementIdsStep [] ["a"] Tab.document = Tab.design :=
  ⟨by decide,
    (selectedElementIds_reset_rule [] ["a"] Tab.document (by decide)).1 rfl (by decide)⟩

/-- C3 counterexample: with the tab on `document`, the non-empty to
non-empty transition `["a"]` to `["b"]` also resets the tab to `design`,
refuting "no reset occurs for transitions other than
empty-to-non-empty". -/
theorem selectedElementIds_reset_nonempty_to_nonempty :
    selectedElementIdsStep ["a"] ["b"] Tab.document = Tab.design ∧
    Tab.design ≠ Tab.document := by
  refine ⟨?_, by decide⟩
  simp [selectedElementIdsStep, selectedElementIdsEffect]

/-- C4: on a single-story view, for every trigger key present both in
the incoming configuration's `triggers` and in the synthesized default
triggers, `filter_site_kit_gtag_opt` keeps the external value (the merge
order lets external triggers overwrite same-keyed synthesized ones). -/
theorem filter_site_kit_gtag_opt_keeps_external_triggers
    (f : Assoc → Assoc) (gtag_opt ts : Assoc) (k : String) (v : JVal)
    (hts : lookupA gtag_opt "triggers" = some (.obj ts))
    (hext : lookupA ts k = some v)
    (hdef : containsKey
      (triggersOf (get_default_configuration f (gtagIdOf gtag_opt))) k = true) :
    lookupA (triggersOf (filter_site_kit_gtag_opt f true gtag_opt)) k = some v := by
  have hres : triggersOf (filter_site_kit_gtag_opt f true gtag_opt) =
      array_merge (triggersOf (get_default_configuration f (gtagIdOf gtag_opt))) ts := by
    have hext_triggers : triggersOf gtag_opt = ts := by
      simp [triggersOf, hts]
    simp only [filter_site_kit_gtag_opt, Bool.not_true, if_neg]
    rw [hext_triggers]
    simp [triggersOf, lookupA_assocSet_self]
  rw [hres]
  exact lookupA_array_merge_right _ ts k v hext

theorem filter_site_kit_gtag_opt_keeps_external_triggers_witness :
    lookupA [("vars", .obj [("gtag_id", .str "UA-9")]),
             ("triggers", .obj [("storyProgress", .str "external")])] "triggers" =
      some (.obj [("storyProgress", JVal.str "external")]) ∧
    lookupA [("storyProgress", JVal.str "external")] "storyProgress" =
      some (JVal.str "external") ∧
    containsKey (triggersOf (get_default_configuration id
      (gtagIdOf [("vars", .obj [("gtag_id", .str "UA-9")]),
                 ("triggers", .obj [("storyProgress", .str "external")])])))
      "storyProgress" = true ∧
    lookupA (triggersOf (filter_site_kit_gtag_opt id true
      [("vars", .obj [("gtag_id", .str "UA-9")]),
       ("triggers", .obj [("storyProgress", .str "external")])])) "storyProgress" =
      some (JVal.str "external") :=
  ⟨rfl, rfl, rfl,
    filter_site_kit_gtag_opt_keeps_external_triggers id
      [("vars", .obj [("gtag_id", .str "UA-9")]),
       ("triggers", .obj [("storyProgress", .str "external")])]
      [("storyProgress", JVal.str "external")] "storyProgress"
      (JVal.str "external") rfl rfl rfl⟩

/-- C5: for every string whose `parseInt` value is an integer `n` with
`0 ≤ n`, a change event with that text stores the text in the buffer and
immediately invokes the `onChange` callback with `n / 100`. -/
theorem handleChange_valid_input (st : OpacityState) (s : String) (n : Int)
    (hp : jsParseInt s = some n) (hn : 0 ≤ n) :
    handleChange st s = ({ st with inputValue := s }, some ((n : ℚ) / 100)) := by
  simp [handleChange, hp]

theorem handleChange_valid_input_witness :
    jsParseInt "50" = some 50 ∧ (0 : Int) ≤ 50 ∧
    handleChange ⟨"", true⟩ "50" = (⟨"50", true⟩, some ((50 : ℚ) / 100)) :=
  ⟨by decide, by decide,
    handleChange_valid_input ⟨"", true⟩ "50" 50 (by decide) (by decide)⟩

/-- C6: for every string whose `parseInt` value is NaN, a change event
never invokes the `onChange` callback, and while the percent suffix is
not focus-suppressed the displayed value is the typed string followed by
the localized percent sign. -/
theorem handleChange_invalid_input (st : OpacityState) (s pct : String)
    (hp : jsParseInt s = none) :
    (handleChange st s).2 = none ∧
    (st.hasPct = true → displayedValue (handleChange st s).1 pct = s ++ pct) := by
  constructor
  · simp [handleChange, hp]
  · intro h
    simp [handleChange, displayedValue, h]

theorem handleChange_invalid_input_witness :
    jsParseInt "abc" = none ∧
    (handleChange ⟨"", true⟩ "abc").2 = none ∧
    displayedValue (handleChange ⟨"", true⟩ "abc").1 "%" = "abc" ++ "%" :=
  ⟨by decide,
    (handleChange_invalid_input ⟨"", true⟩ "abc" "%" (by decide)).1,
    (handleChange_invalid_input ⟨"", true⟩ "abc" "%" (by decide)).2 rfl⟩

/-- C7: on every blur, whatever the buffer and suffix flag held, the
percent suffix is re-enabled and the buffer is reset to the formatted
preview of the last externally committed value. -/
theorem handleBlur_restores_preview (value : ℚ) (st : OpacityState) :
    (handleBlur value st).hasPct = true ∧
    (handleBlur value st).inputValue = getPreviewOpacity value :=
  ⟨rfl, rfl⟩

/-- C8: a resolved status fetch stores the records with `show_in_list`
truthy, mapped to `{value: slug, name}`; in particular resolving with
the draft/publish pair stores exactly the published entry. -/
theorem resolveStatuses_filters_and_maps (st : ProviderState)
    (data : List StatusRecord) :
    (resolveStatuses st data).statuses =
      (data.filter (fun r => r.show_in_list)).map
        (fun r => { value := r.slug, name := r.name }) ∧
    (resolveStatuses { initialProviderState with isStatusesLoading := true }
        [⟨"draft", "Draft", false⟩, ⟨"publish", "Published", true⟩]).statuses =
      [{ value := "publish", name := "Published" }] :=
  ⟨rfl, rfl⟩

/-- C9: when a status or user fetch rejects, only the corresponding
loading flag clears, the list stays as it was (empty), and a subsequent
call of the same load action invokes the fetch capability again. -/
theorem fetch_rejection_clears_flag_and_retries (st st' : ProviderState)
    (hs : st.statuses = []) (hu : st'.users = []) :
    (rejectStatuses st).isStatusesLoading = false ∧
    (rejectStatuses st).statuses = [] ∧
    (loadStatuses (rejectStatuses st)).2 = true ∧
    (rejectUsers st').isUsersLoading = false ∧
    (rejectUsers st').users = [] ∧
    (loadUsers (rejectUsers st')).2 = true := by
  refine ⟨rfl, hs, ?_, rfl, hu, ?_⟩
  · simp [loadStatuses, rejectStatuses, hs]
  · simp [loadUsers, rejectUsers, hu]

theorem fetch_rejection_clears_flag_and_retries_witness :
    (⟨Tab.design, [], [], false, true⟩ : ProviderState).statuses = [] ∧
    (⟨Tab.design, [], [], true, false⟩ : ProviderState).users = [] ∧
    ((rejectStatuses ⟨Tab.design, [], [], false, true⟩).isStatusesLoading = false ∧
      (rejectStatuses ⟨Tab.design, [], [], false, true⟩).statuses = [] ∧
      (loadStatuses (rejectStatuses ⟨Tab.design, [], [], false, true⟩)).2 = true ∧
      (rejectUsers ⟨Tab.design, [], [], true, false⟩).isUsersLoading = false ∧
      (rejectUsers ⟨Tab.design, [], [], true, false⟩).users = [] ∧
      (loadUsers (rejectUsers ⟨Tab.design, [], [], true, false⟩)).2 = true) :=
  ⟨rfl, rfl,
    fetch_rejection_clears_flag_and_retries
      ⟨Tab.design, [], [], false, true⟩ ⟨Tab.design, [], [], true, false⟩ rfl rfl⟩

/-- C10: `filter_site_kit_gtag_opt` returns the input unchanged on
non-single-story views, and on single-story views every key other than
`triggers` (in particular `vars`) reads the same in the result as in the
input. -/
theorem filter_site_kit_gtag_opt_frame (f : Assoc → Assoc) (gtag_opt : Assoc)
    (k : String) (hk : k ≠ "triggers") :
    filter_site_kit_gtag_opt f false gtag_opt = gtag_opt ∧
    lookupA (filter_site_kit_gtag_opt f true gtag_opt) k = lookupA gtag_opt k := by
  constructor
  · simp [filter_site_kit_gtag_opt]
  · simp only [filter_site_kit_gtag_opt, Bool.not_true, if_neg]
    exact lookupA_assocSet_ne _ _ _ _ hk

theorem filter_site_kit_gtag_opt_frame_witness :
    ("vars" : String) ≠ "triggers" ∧
    (filter_site_kit_gtag_opt id false
        [("vars", .obj [("gtag_id", .str "UA-9")])] =
      [("vars", .obj [("gtag_id", JVal.str "UA-9")])] ∧
    lookupA (filter_site_kit_gtag_opt id true
        [("vars", .obj [("gtag_id", .str "UA-9")])]) "vars" =
      lookupA [("vars", .obj [("gtag_id", JVal.str "UA-9")])] "vars") :=
  ⟨by decide,
    filter_site_kit_gtag_opt_frame id
      [("vars", .obj [("gtag_id", JVal.str "UA-9")])] "vars" (by decide)⟩

end WebStories
